import Mathlib

/-!
Verification development for the portfolio-optimizer repository.

Shallow embedding of the quantitative core:
  * `optimizer.py`  — `calculate_portfolio_performance`, `optimize_portfolio`
  * `portfolio_analyzer.py` — `PortfolioAnalyzer.analyze_proposed_portfolio`,
    `_analyze_market_conditions`, `_generate_portfolio_opinion`,
    `recommend_stocks`
  * `data_handler.py` — `get_price_data` is an external fetch (yfinance);
    its results are supplied through an environment record.

Modelling conventions, used throughout:
  * Python/numpy floats are modelled as exact rationals `ℚ`.  `np.sqrt` /
    pandas `.std()`'s square root is an uninterpreted parameter
    `npSqrt : ℚ → ℚ` threaded through every definition that needs it; no
    theorem below depends on any property of `npSqrt` unless stated.
  * numpy/pandas division never raises in Python (it yields inf/NaN with a
    warning); those values are outside every claim, and `ℚ` division by zero
    yields `0` in Lean.  Pure-Python division by zero, which does raise
    `ZeroDivisionError`, is modelled by an explicit test and a raised
    exception value.
  * pandas reductions over an empty series yield NaN without raising; they
    are modelled as `0` (no claim below inspects such a value).
  * A price table (pandas DataFrame of Close prices) is a `Table`: a list of
    column labels and rows `(date, prices)`, dates strictly increasing.
  * The process-global numpy random state consumed by `np.random.normal` is
    modelled as an explicit stream `gauss : Nat → ℚ` of standard-normal
    draws carried by the environment (not by any parameter of the source
    functions), consumed left to right.
  * Dates are day numbers; `d % 7` is Python's `date.weekday()` (0 = Monday),
    so `d % 7 < 5` is the source's weekday test.
-/

/-- A Python exception value. -/
inductive PyExc where
  | zeroDivisionError : PyExc
  | valueError (msg : String) : PyExc
deriving DecidableEq

/-- `str(e)` for the exceptions we model. -/
def excMsg : PyExc → String
  | .zeroDivisionError => "float division by zero"
  | .valueError m => m

/-- What a Python call does: either raises or returns a value. -/
inductive Outcome (α : Type) where
  | raised (e : PyExc) : Outcome α
  | returned (a : α) : Outcome α
deriving DecidableEq

/-- True when the call returned normally (did not raise). -/
def Outcome.isReturned {α : Type} : Outcome α → Bool
  | .returned _ => true
  | .raised _ => false

/-- A pandas DataFrame of Close prices: column labels (tickers) and rows of
(date, one price per column). -/
structure Table where
  tickers : List String
  rows : List (Nat × List ℚ)
deriving DecidableEq

/-- pandas `DataFrame.empty`: true when either axis has length 0.  The failed
fetch in `get_price_data` returns `pd.DataFrame()`, empty on both axes. -/
def Table.isEmpty (t : Table) : Bool :=
  t.rows.isEmpty || t.tickers.isEmpty

/-- The row index of a table. -/
def Table.dates (t : Table) : List Nat :=
  t.rows.map (fun r => r.1)

/-- Column `i` of a table, as a series of values. -/
def Table.colAt (t : Table) (i : Nat) : List ℚ :=
  t.rows.map (fun r => r.2.getD i 0)

/-- Column selected by label. -/
def Table.col (t : Table) (name : String) : List ℚ :=
  match t.tickers.findIdx? (fun s => s == name) with
  | some i => t.colAt i
  | none => []

/-- pandas `.loc[common]`: the rows whose date is in the given index. -/
def Table.locDates (t : Table) (ds : List Nat) : Table :=
  { tickers := t.tickers, rows := t.rows.filter (fun r => r.1 ∈ ds) }

/-- `DataFrame.pct_change().dropna()`: simple period-over-period change per
column; the first row (all NaN) is dropped. -/
def Table.pctChange (t : Table) : Table :=
  { tickers := t.tickers,
    rows := (t.rows.zip t.rows.tail).map
      (fun p => (p.2.1, (p.1.2.zip p.2.2).map (fun q => q.2 / q.1 - 1))) }

/-- `Index.intersection`, on our strictly increasing date indices. -/
def interDates (a b : List Nat) : List Nat :=
  a.filter (fun d => d ∈ b)

/-- Series mean (`Series.mean()`); empty series: NaN, modelled as 0. -/
def sMean (l : List ℚ) : ℚ := l.sum / l.length

/-- Sample variance, pandas default `ddof=1`. -/
def sVar (l : List ℚ) : ℚ :=
  ((l.map (fun x => (x - sMean l) ^ 2)).sum) / ((l.length : ℚ) - 1)

/-- Population variance, numpy `np.var` default `ddof=0`. -/
def pVar (l : List ℚ) : ℚ :=
  ((l.map (fun x => (x - sMean l) ^ 2)).sum) / (l.length : ℚ)

/-- `Series.std()` (ddof=1), through the abstract square root. -/
def sStd (npSqrt : ℚ → ℚ) (l : List ℚ) : ℚ := npSqrt (sVar l)

/-- Sample covariance of two aligned series, ddof=1 (pandas `.cov()`,
`np.cov(x, y)[0, 1]`). -/
def sCov (x y : List ℚ) : ℚ :=
  (((x.zip y).map (fun p => (p.1 - sMean x) * (p.2 - sMean y))).sum) /
    ((x.length : ℚ) - 1)

/-- Pearson correlation of two aligned series (`Series.corr`). -/
def pearson (npSqrt : ℚ → ℚ) (x y : List ℚ) : ℚ :=
  sCov x y / (sStd npSqrt x * sStd npSqrt y)

/-- `np.dot` of two equal-length vectors. -/
def dotList : List ℚ → List ℚ → ℚ
  | a :: as, b :: bs => a * b + dotList as bs
  | _, _ => 0

/-- `np.dot(matrix, vector)`. -/
def matVec (m : List (List ℚ)) (v : List ℚ) : List ℚ :=
  m.map (fun row => dotList row v)

/-- `np.cumprod`. -/
def cumprod (l : List ℚ) : List ℚ :=
  (l.scanl (fun a b => a * b) 1).tail

/-- `Series.expanding().max()`. -/
def expandingMax : List ℚ → List ℚ
  | [] => []
  | x :: xs => xs.scanl (fun a b => max a b) x

/-- `Series.min()`; empty series: NaN, modelled as 0. -/
def listMin : List ℚ → ℚ
  | [] => 0
  | x :: xs => xs.foldl (fun a b => min a b) x

/-- A concrete square-root function used to instantiate `npSqrt` in
witnesses: exact on every square of a rational (the square of a reduced
fraction has a perfect-square numerator and denominator).  All witness
computations below apply it only to such squares, or to arguments whose
value cancels out, so no conclusion depends on its values elsewhere. -/
def ratSqrt (q : ℚ) : ℚ :=
  (Nat.sqrt q.num.toNat : ℚ) / (Nat.sqrt q.den : ℚ)

/-! ## optimizer.py -/

/-- `trading_days = 252`. -/
def trading_days : ℚ := 252

/-- `calculate_portfolio_performance(weights, mean_returns, cov_matrix)`:
`ret = np.dot(weights, mean_returns) * trading_days`,
`risk = np.sqrt(np.dot(weights.T, np.dot(cov_matrix, weights)) * trading_days)`. -/
def calculate_portfolio_performance (npSqrt : ℚ → ℚ)
    (weights mean_returns : List ℚ) (cov_matrix : List (List ℚ)) : ℚ × ℚ :=
  (dotList weights mean_returns * trading_days,
   npSqrt (dotList weights (matVec cov_matrix weights) * trading_days))

/-- Column means of a returns table (`returns.mean()`), one per column. -/
def meansOf (t : Table) : List ℚ :=
  (List.range t.tickers.length).map (fun i => sMean (t.colAt i))

/-- Covariance matrix of a returns table (`returns.cov()`, ddof=1). -/
def covMatrixOf (t : Table) : List (List ℚ) :=
  (List.range t.tickers.length).map (fun i =>
    (List.range t.tickers.length).map (fun j => sCov (t.colAt i) (t.colAt j)))

/-- What `optimize_portfolio` hands to `scipy.optimize.minimize`: the
objective arguments, and the starting point.  The bounds `(0, 1)` per asset
and the constraint `sum(weights) - 1 == 0` are fixed in the source. -/
structure SolverInput where
  mean_returns : List ℚ
  cov_matrix : List (List ℚ)
  risk_free_rate : ℚ
  init_guess : List ℚ

/-- `scipy.optimize.OptimizeResult`, the fields the source reads. -/
structure SolverResult where
  success : Bool
  x : List ℚ

/-- SLSQP's documented contract for this problem: when it reports success,
its point has one coordinate per coordinate of the starting guess, respects
the box bounds `[0, 1]`, and satisfies the equality constraint
`sum(w) == 1` within the solver tolerance `1e-6`.  `optimize_portfolio`
passes the solver output through unchanged, so claim C1 holds exactly when
the solver honours this contract. -/
def SolverFeasible (solver : SolverInput → SolverResult) : Prop :=
  ∀ inp : SolverInput, (solver inp).success = true →
    (solver inp).x.length = inp.init_guess.length ∧
    (∀ w ∈ (solver inp).x, 0 ≤ w ∧ w ≤ 1) ∧
    |(solver inp).x.sum - 1| ≤ 1 / 1000000

/-- The record returned by a successful `optimize_portfolio`. -/
structure OptResult where
  weights : List ℚ
  ret : ℚ
  risk : ℚ
  sharpe : ℚ
deriving DecidableEq

/-- `optimize_portfolio(price_data, risk_free_rate)`.  Note the source
computes `init_guess = np.array([1.0 / num_assets] * num_assets)`: with an
empty price table `num_assets == 0` and the pure-Python division
`1.0 / num_assets` raises `ZeroDivisionError` before the solver ever runs.
On solver failure the source raises `ValueError("Optimization failed.")`. -/
def optimize_portfolio (npSqrt : ℚ → ℚ) (solver : SolverInput → SolverResult)
    (price_data : Table) (risk_free_rate : ℚ) : Outcome OptResult :=
  let returns := price_data.pctChange
  let mean_returns := meansOf returns
  let cov_matrix := covMatrixOf returns
  let num_assets := mean_returns.length
  if num_assets = 0 then .raised .zeroDivisionError
  else
    let res := solver
      { mean_returns := mean_returns, cov_matrix := cov_matrix,
        risk_free_rate := risk_free_rate,
        init_guess := List.replicate num_assets (1 / (num_assets : ℚ)) }
    if res.success then
      let ret := (calculate_portfolio_performance npSqrt res.x mean_returns cov_matrix).1
      let risk := (calculate_portfolio_performance npSqrt res.x mean_returns cov_matrix).2
      .returned
        { weights := res.x, ret := ret, risk := risk,
          sharpe := (ret - risk_free_rate) / risk }
    else .raised (.valueError "Optimization failed.")

/-- The weights of an optimizer outcome (empty when it raised). -/
def optWeights : Outcome OptResult → List ℚ
  | .returned r => r.weights
  | .raised _ => []

/-- A diagonal matrix with the given diagonal, for stating the
diagonal-covariance case of claim C4. -/
def diagOf : List ℚ → List (List ℚ)
  | [] => []
  | x :: xs => (x :: xs.map (fun _ => 0)) :: (diagOf xs).map (fun row => 0 :: row)

/-- `Σ w_i ^ 2 * d_i` over paired lists. -/
def sumSq : List ℚ → List ℚ → ℚ
  | a :: as, b :: bs => a ^ 2 * b + sumSq as bs
  | _, _ => 0

/-! ## portfolio_analyzer.py — data model and environment -/

/-- `portfolio_data`: an ordered dict ticker -> (price, shares). -/
abbrev Portfolio : Type := List (String × ℚ × ℚ)

/-- `self.risk_free_rate = 0.05`. -/
def analyzer_risk_free_rate : ℚ := 1 / 20

/-- `self.sector_etfs`, in insertion order. -/
def sector_etfs : List (String × String) :=
  [("XLK", "Technology"), ("XLF", "Financials"), ("XLV", "Healthcare"),
   ("XLE", "Energy"), ("XLI", "Industrial"), ("XLP", "Consumer Staples"),
   ("XLY", "Consumer Discretionary"), ("XLB", "Materials"),
   ("XLU", "Utilities"), ("XLRE", "Real Estate")]

/-- The world `analyze_proposed_portfolio` reads: the two `get_price_data`
fetches (an external collaborator, spec section 6), the process-global numpy
random stream, and the current date.  `hist` is
`get_price_data(tickers, start, end)` for the portfolio's tickers over the
one-year lookback; `market` the same for `['^GSPC']`. -/
structure AnalyzeEnv where
  hist : Table
  market : Table
  gauss : Nat → ℚ
  today : Nat

/-- `sum(price * shares for ...)`. -/
def totalInvestment (pd : Portfolio) : ℚ :=
  (pd.map (fun x => x.2.1 * x.2.2)).sum

/-- `{ticker: (price * shares) / total_investment ...}` (runs only when the
total is nonzero or the portfolio is empty; the raising case is handled at
the call site). -/
def weightsOf (pd : Portfolio) : List (String × ℚ) :=
  pd.map (fun x => (x.1, x.2.1 * x.2.2 / totalInvestment pd))

/-- Label lookup in a weight mapping (missing labels align to 0). -/
def lookupQ (w : List (String × ℚ)) (k : String) : ℚ :=
  ((w.find? (fun x => x.1 == k)).map (fun x => x.2)).getD 0

/-- `returns.dot(pd.Series(weights))`: pandas aligns the series by label with
the frame's columns; per row the label-aligned dot product. -/
def alignedDot (t : Table) (w : List (String × ℚ)) : List (Nat × ℚ) :=
  t.rows.map (fun r =>
    (r.1, ((t.tickers.zip r.2).map (fun p => p.2 * lookupQ w p.1)).sum))

/-- `historical_data.pct_change().dropna()`. -/
def histReturns (env : AnalyzeEnv) : Table := env.hist.pctChange

/-- `historical_returns.std() * np.sqrt(252)` per ticker. -/
def histVolatility (npSqrt : ℚ → ℚ) (env : AnalyzeEnv) : List (String × ℚ) :=
  env.hist.tickers.map (fun tk =>
    (tk, sStd npSqrt ((histReturns env).col tk) * npSqrt 252))

/-- `historical_returns.dot(pd.Series(weights))`. -/
def histPortfolioReturns (pd : Portfolio) (env : AnalyzeEnv) : List (Nat × ℚ) :=
  alignedDot (histReturns env) (weightsOf pd)

/-- The portfolio's historical daily return values. -/
def histPRVals (pd : Portfolio) (env : AnalyzeEnv) : List ℚ :=
  (histPortfolioReturns pd env).map (fun r => r.2)

/-- `historical_portfolio_returns.mean() * 252`. -/
def histAnnualReturn (pd : Portfolio) (env : AnalyzeEnv) : ℚ :=
  sMean (histPRVals pd env) * 252

/-- `historical_portfolio_returns.std() * np.sqrt(252)`. -/
def histAnnualVolatility (npSqrt : ℚ → ℚ) (pd : Portfolio) (env : AnalyzeEnv) : ℚ :=
  sStd npSqrt (histPRVals pd env) * npSqrt 252

/-- `(historical_annual_return - risk_free_rate) / historical_annual_volatility`
(numpy float division: never raises). -/
def histSharpe (npSqrt : ℚ → ℚ) (pd : Portfolio) (env : AnalyzeEnv) : ℚ :=
  (histAnnualReturn pd env - analyzer_risk_free_rate) /
    histAnnualVolatility npSqrt pd env

/-- Maximum drawdown of the cumulative historical portfolio returns. -/
def histMaxDrawdown (pd : Portfolio) (env : AnalyzeEnv) : ℚ :=
  let cum := cumprod ((histPRVals pd env).map (fun r => 1 + r))
  listMin ((cum.zip (expandingMax cum)).map (fun p => p.1 / p.2 - 1))

/-- The beta computation, source lines 69-85: initialized to `1.0`; updated
to `np.cov(hpr, market)[0,1] / np.var(market)` only when the `^GSPC` fetch is
non-empty and the two return indices share a date (`np.cov` uses ddof=1,
`np.var` ddof=0, as in the source). -/
def betaCalc (pd : Portfolio) (env : AnalyzeEnv) : ℚ :=
  if env.market.isEmpty then 1
  else
    let market_returns := env.market.pctChange
    let common := interDates (histReturns env).dates market_returns.dates
    if common.length > 0 then
      let hpr := ((histPortfolioReturns pd env).filter
        (fun r => r.1 ∈ common)).map (fun r => r.2)
      let mret := (market_returns.locDates common).colAt 0
      sCov hpr mret / pVar mret
    else 1

/-- Source lines 92-97: starting from today, step one CALENDAR day at a time
252 times, keeping only weekdays.  252 is exactly 36 weeks, so the generated
axis always holds 36 * 5 = 180 dates — not 252 trading days. -/
def genDates (today : Nat) : List Nat :=
  ((List.range 252).map (fun k => today + k + 1)).filter (fun d => d % 7 < 5)

/-- `np.random.normal(mean, sd, n)` drawing the `n` standard-normal variates
`gauss offset, ..., gauss (offset+n-1)` from the process-global stream. -/
def normalDraws (gauss : Nat → ℚ) (offset : Nat) (meanv sd : ℚ) (n : Nat) : List ℚ :=
  (List.range n).map (fun i => meanv + sd * gauss (offset + i))

/-- Source lines 100-105, for the `k`-th ticker of the portfolio: the daily
volatility is that ticker's annualized volatility re-divided by `np.sqrt(252)`,
the mean of every draw is the PORTFOLIO's `historical_annual_return / 252`,
and the draws compound multiplicatively onto the ticker's entered price. -/
def futureCol (npSqrt : ℚ → ℚ) (pd : Portfolio) (env : AnalyzeEnv)
    (k : Nat) (entry : String × ℚ × ℚ) : List ℚ :=
  let dates := genDates env.today
  let daily_vol := lookupQ (histVolatility npSqrt env) entry.1 / npSqrt 252
  let draws := normalDraws env.gauss (k * dates.length)
    (histAnnualReturn pd env / 252) daily_vol dates.length
  (cumprod (draws.map (fun r => 1 + r))).map (fun c => entry.2.1 * c)

/-- `future_prices_df`: the simulated paths as a table over the generated
date axis, one column per portfolio ticker in insertion order. -/
def futureTable (npSqrt : ℚ → ℚ) (pd : Portfolio) (env : AnalyzeEnv) : Table :=
  let dates := genDates env.today
  let cols := pd.enum.map (fun e => futureCol npSqrt pd env e.1 e.2)
  { tickers := pd.map (fun x => x.1),
    rows := dates.enum.map (fun d => (d.2, cols.map (fun c => c.getD d.1 0))) }

/-- Projected daily portfolio returns from the simulated table. -/
def projPRVals (npSqrt : ℚ → ℚ) (pd : Portfolio) (env : AnalyzeEnv) : List ℚ :=
  (alignedDot (futureTable npSqrt pd env).pctChange (weightsOf pd)).map
    (fun r => r.2)

/-- `projected_portfolio_returns.mean() * 252`. -/
def projAnnualReturn (npSqrt : ℚ → ℚ) (pd : Portfolio) (env : AnalyzeEnv) : ℚ :=
  sMean (projPRVals npSqrt pd env) * 252

/-- `projected_portfolio_returns.std() * np.sqrt(252)`. -/
def projAnnualVolatility (npSqrt : ℚ → ℚ) (pd : Portfolio) (env : AnalyzeEnv) : ℚ :=
  sStd npSqrt (projPRVals npSqrt pd env) * npSqrt 252

/-- Projected Sharpe ratio (numpy division, never raises). -/
def projSharpe (npSqrt : ℚ → ℚ) (pd : Portfolio) (env : AnalyzeEnv) : ℚ :=
  (projAnnualReturn npSqrt pd env - analyzer_risk_free_rate) /
    projAnnualVolatility npSqrt pd env

/-- The tagged market condition `_analyze_market_conditions` returns. -/
structure MarketConditions where
  condition : String
  volatility : ℚ
  trend : ℚ
deriving DecidableEq

/-- `(market_data.iloc[-1] / market_data.iloc[0] - 1) * 100`, first column. -/
def marketTrend (market : Table) : ℚ :=
  (((market.rows.getLastD (0, [])).2).headD 0 /
      ((market.rows.headD (0, [])).2).headD 0 - 1) * 100

/-- `_analyze_market_conditions(market_data)`: empty data yields the defined
Unknown condition; otherwise volatility is annualized std of daily returns
and the condition follows the trend thresholds at +-5. -/
def analyze_market_conditions (npSqrt : ℚ → ℚ) (market : Table) : MarketConditions :=
  if market.isEmpty then
    { condition := "Unknown", volatility := 0, trend := 0 }
  else
    { condition :=
        if marketTrend market > 5 then "Bullish"
        else if marketTrend market < -5 then "Bearish"
        else "Neutral",
      volatility := sStd npSqrt (market.pctChange.colAt 0) * npSqrt 252,
      trend := marketTrend market }

/-- `_generate_portfolio_opinion`. -/
def generate_portfolio_opinion (annual_return annual_volatility sharpe beta
    max_drawdown : ℚ) (mc : MarketConditions) : List String :=
  (if annual_return > 15 / 100 then
      ["Strong return potential with annual return above 15%"]
    else if annual_return > 10 / 100 then
      ["Good return potential with annual return above 10%"]
    else if annual_return > 5 / 100 then
      ["Moderate return potential with annual return above 5%"]
    else ["Low return potential with annual return below 5%"]) ++
  (if annual_volatility < 15 / 100 then
      ["Low volatility portfolio, suitable for conservative investors"]
    else if annual_volatility < 25 / 100 then
      ["Moderate volatility, balanced risk-reward profile"]
    else ["High volatility portfolio, suitable for aggressive investors"]) ++
  (if sharpe > 3 / 2 then
      ["Excellent risk-adjusted returns with Sharpe ratio above 1.5"]
    else if sharpe > 1 then
      ["Good risk-adjusted returns with Sharpe ratio above 1.0"]
    else ["Below-average risk-adjusted returns"]) ++
  (if beta < 8 / 10 then ["Low market sensitivity, good for diversification"]
    else if beta > 12 / 10 then
      ["High market sensitivity, consider adding defensive stocks"]
    else []) ++
  (if max_drawdown < -(2 / 10) then
      ["Significant drawdown risk, consider adding defensive positions"]
    else []) ++
  (if mc.condition == "Bearish" then
      ["Current market conditions are bearish, consider defensive positioning"]
    else if mc.condition == "Bullish" then
      ["Current market conditions are bullish, good time for growth stocks"]
    else [])

/-- The success payload of `analyze_proposed_portfolio`. -/
structure AnalyzeSuccess where
  total_investment : ℚ
  weights : List (String × ℚ)
  current_value : List (String × ℚ)
  hist_annual_return : ℚ
  hist_annual_volatility : ℚ
  hist_sharpe : ℚ
  hist_max_drawdown : ℚ
  proj_annual_return : ℚ
  proj_annual_volatility : ℚ
  proj_sharpe : ℚ
  beta : ℚ
  future_prices : List (Nat × List ℚ)
  market_conditions : MarketConditions
  opinion : List String
deriving DecidableEq

/-- What `analyze_proposed_portfolio` returns: its success dict, or its
`{"error": ...}` dict. -/
inductive AnalyzeDict where
  | errorDict (msg : String) : AnalyzeDict
  | success (r : AnalyzeSuccess) : AnalyzeDict
deriving DecidableEq

/-- The success record, assembled from the helpers above, source lines
135-156. -/
def mkAnalyzeSuccess (npSqrt : ℚ → ℚ) (pd : Portfolio) (env : AnalyzeEnv) :
    AnalyzeSuccess :=
  { total_investment := totalInvestment pd,
    weights := weightsOf pd,
    current_value := pd.map (fun x => (x.1, x.2.1 * x.2.2)),
    hist_annual_return := histAnnualReturn pd env,
    hist_annual_volatility := histAnnualVolatility npSqrt pd env,
    hist_sharpe := histSharpe npSqrt pd env,
    hist_max_drawdown := histMaxDrawdown pd env,
    proj_annual_return := projAnnualReturn npSqrt pd env,
    proj_annual_volatility := projAnnualVolatility npSqrt pd env,
    proj_sharpe := projSharpe npSqrt pd env,
    beta := betaCalc pd env,
    future_prices := (futureTable npSqrt pd env).rows,
    market_conditions := analyze_market_conditions npSqrt env.market,
    opinion := generate_portfolio_opinion (histAnnualReturn pd env)
      (histAnnualVolatility npSqrt pd env) (histSharpe npSqrt pd env)
      (betaCalc pd env) (histMaxDrawdown pd env)
      (analyze_market_conditions npSqrt env.market) }

/-- The body of the `try:` block of `analyze_proposed_portfolio`.  The only
raising statement is the weight comprehension: with a non-empty portfolio
whose market value sums to zero, `(price * shares) / total_investment` is a
pure-Python division by zero (an empty portfolio executes no division and
falls through to the empty-fetch check). -/
def analyze_body (npSqrt : ℚ → ℚ) (pd : Portfolio) (env : AnalyzeEnv) :
    Outcome AnalyzeDict :=
  if pd ≠ [] ∧ totalInvestment pd = 0 then .raised .zeroDivisionError
  else if env.hist.isEmpty then
    .returned (.errorDict
      ("Failed to fetch historical price data. Please check ticker symbols."))
  else .returned (.success (mkAnalyzeSuccess npSqrt pd env))

/-- `analyze_proposed_portfolio` as the caller sees it: the whole body runs
under `try: ... except Exception as e: return {"error": f"..."}`, so every
internal failure becomes the error dict. -/
def analyzeDictOf (npSqrt : ℚ → ℚ) (pd : Portfolio) (env : AnalyzeEnv) :
    AnalyzeDict :=
  match analyze_body npSqrt pd env with
  | .raised e => .errorDict ("Error analyzing portfolio: " ++ excMsg e)
  | .returned d => d

/-- The entry point's outcome: it always returns a dict, never raises. -/
def analyze_proposed_portfolio (npSqrt : ℚ → ℚ) (pd : Portfolio)
    (env : AnalyzeEnv) : Outcome AnalyzeDict :=
  .returned (analyzeDictOf npSqrt pd env)

/-- The beta field of a SUCCESSFUL analysis outcome. -/
def dictBeta : Outcome AnalyzeDict → Option ℚ
  | .returned (.success r) => some r.beta
  | _ => none

/-- True when the analysis outcome is the success dict. -/
def isSuccessD : Outcome AnalyzeDict → Bool
  | .returned (.success _) => true
  | _ => false

/-! ## portfolio_analyzer.py — recommend_stocks -/

/-- The world `recommend_stocks` reads on top of the analysis environment:
the sector-ETF price fetch, the per-ETF `yf.Ticker(etf).get_holdings()`
lookup (`none` models both an exception — the attribute does not exist in
yfinance — and a `None` result; either is absorbed by the `try` blocks), and
the per-candidate price fetch.  The source refetches the portfolio's own
prices with exactly the arguments of the fetch inside
`analyze_proposed_portfolio`, so `current_prices` is `aenv.hist`. -/
structure RecommendEnv where
  aenv : AnalyzeEnv
  etf : Table
  holdings : String → Option (List String)
  stockData : String → Table

/-- One entry of the recommendations list, source lines 345-355. -/
structure RecEntry where
  ticker : String
  sector : String
  current_price : ℚ
  volatility : ℚ
  beta : ℚ
  volatility_reduction : ℚ
  beta_reduction : ℚ
deriving DecidableEq

/-- The sort key of the final sort, source lines 360-363. -/
def recKey (r : RecEntry) : ℚ := r.volatility_reduction + r.beta_reduction

/-- The success payload of `recommend_stocks`. -/
structure RecommendSuccess where
  recommendations : List RecEntry
  current_volatility : ℚ
  current_beta : ℚ
  low_correlation_sectors : List String
  fallback_message : Option String
  fallback_suggestions : List (String × String)
deriving DecidableEq

/-- What `recommend_stocks` returns. -/
inductive RecommendDict where
  | errorDict (msg : String) : RecommendDict
  | success (r : RecommendSuccess) : RecommendDict
deriving DecidableEq

/-- `portfolio_returns = current_returns.dot(pd.Series(weights))`,
source lines 293-299. -/
def recPortfolioReturns (pd : Portfolio) (renv : RecommendEnv) : List (Nat × ℚ) :=
  alignedDot renv.aenv.hist.pctChange (weightsOf pd)

/-- Source lines 302-309: for each sector ETF present in the ETF returns,
the Pearson correlation with the portfolio's returns over the common dates
(ETFs with no overlap are excluded). -/
def correlationsOf (npSqrt : ℚ → ℚ) (pd : Portfolio) (renv : RecommendEnv) :
    List (String × ℚ) :=
  let returns := renv.etf.pctChange
  let pret := recPortfolioReturns pd renv
  sector_etfs.filterMap (fun e =>
    if e.1 ∈ returns.tickers then
      let common := interDates (pret.map (fun r => r.1)) returns.dates
      if common.length > 0 then
        some (e.1, pearson npSqrt (returns.locDates common |>.col e.1)
          ((pret.filter (fun r => r.1 ∈ common)).map (fun r => r.2)))
      else none
    else none)

/-- `sorted(correlations.items(), key=lambda x: abs(x[1]))[:3]` — Python's
sort is stable, as is `List.mergeSort`. -/
def lowCorrSectors (npSqrt : ℚ → ℚ) (pd : Portfolio) (renv : RecommendEnv) :
    List (String × ℚ) :=
  ((correlationsOf npSqrt pd renv).mergeSort
    (fun a b => decide (|a.2| ≤ |b.2|))).take 3

/-- The candidate loop over one sector's top-5 holdings, source lines
325-355, accumulating into the shared `recommendations` list.  A candidate
already held, with an empty price fetch, or with no overlapping dates is
skipped.  A candidate that reaches line 339 executes
`stock_returns.loc[common_dates].corr(portfolio_returns.loc[common_dates])`
— but `stock_returns` is a one-column DataFrame, and `DataFrame.corr` does
not accept a Series argument (pandas rejects it while validating its
`method` parameter), so this line raises before any entry is appended; the
`except` at line 356 catches it and `continue`s with the NEXT sector,
keeping only what was accumulated so far.  Hence no branch extends `acc`. -/
def candLoop (pdTickers : List String) (renv : RecommendEnv)
    (pretDates : List Nat) (acc : List RecEntry) : List String → List RecEntry
  | [] => acc
  | c :: cs =>
    if c ∈ pdTickers then candLoop pdTickers renv pretDates acc cs
    else
      let sd := renv.stockData c
      if sd.isEmpty then candLoop pdTickers renv pretDates acc cs
      else
        let common := interDates pretDates sd.pctChange.dates
        if common.length > 0 then acc
        else candLoop pdTickers renv pretDates acc cs

/-- The loop over the three low-correlation sectors, source lines 316-357.
A sector whose `get_holdings()` raises or returns `None` (modelled `none`)
or an empty frame contributes nothing. -/
def recsRawOf (npSqrt : ℚ → ℚ) (pd : Portfolio) (renv : RecommendEnv) :
    List RecEntry :=
  (lowCorrSectors npSqrt pd renv).foldl (fun acc e =>
    match renv.holdings e.1 with
    | none => acc
    | some hs =>
      if hs.isEmpty then acc
      else candLoop (pd.map (fun x => x.1)) renv
        ((recPortfolioReturns pd renv).map (fun r => r.1)) acc (hs.take 5)) []

/-- `recommendations.sort(key=..., reverse=True)`: stable descending sort by
`volatility_reduction + beta_reduction`. -/
def recsSorted (npSqrt : ℚ → ℚ) (pd : Portfolio) (renv : RecommendEnv) :
    List RecEntry :=
  (recsRawOf npSqrt pd renv).mergeSort (fun a b => decide (recKey b ≤ recKey a))

/-- The sector label of an ETF symbol (`self.sector_etfs[etf]`). -/
def sectorOf (etfName : String) : String :=
  ((sector_etfs.find? (fun s => s.1 == etfName)).map (fun s => s.2)).getD ""

/-- Source lines 366-388: when no recommendation was produced but a best
low-correlation sector exists, up to 2 of its not-already-held top holdings
are suggested unscored. -/
def fallbackOf (npSqrt : ℚ → ℚ) (pd : Portfolio) (renv : RecommendEnv) :
    List (String × String) :=
  if (recsRawOf npSqrt pd renv).isEmpty ∧ lowCorrSectors npSqrt pd renv ≠ [] then
    let best := ((lowCorrSectors npSqrt pd renv).headD ("", 0)).1
    match renv.holdings best with
    | none => []
    | some hs =>
      (((hs.take 5).filter (fun c => c ∉ pd.map (fun x => x.1))).take 2).map
        (fun c => (c, sectorOf best))
  else []

/-- The success record of `recommend_stocks`, source lines 390-399. -/
def mkRecommendSuccess (npSqrt : ℚ → ℚ) (pd : Portfolio) (renv : RecommendEnv)
    (num : Nat) (cm : AnalyzeSuccess) : RecommendSuccess :=
  { recommendations := (recsSorted npSqrt pd renv).take num,
    current_volatility := cm.hist_annual_volatility,
    current_beta := cm.beta,
    low_correlation_sectors := (lowCorrSectors npSqrt pd renv).map (fun e =>
      sectorOf e.1),
    fallback_message :=
      -- The source interpolates the sector name into an f-string here; the
      -- message text is abbreviated in this model (no claim reads it).
      if (fallbackOf npSqrt pd renv).isEmpty then none
      else some ("No suitable recommendations found; top stocks from the best low-correlation sector follow."),
    fallback_suggestions := fallbackOf npSqrt pd renv }

/-- The body of the `try:` of `recommend_stocks`: the early error dicts and
the success dict.  (Its own statements raise nothing that is not already
absorbed by the inner `try` blocks; the weight recomputation at lines
296-297 can only divide by zero when `analyze_proposed_portfolio` already
failed, which returns the error dict first.) -/
def recommend_body (npSqrt : ℚ → ℚ) (pd : Portfolio) (renv : RecommendEnv)
    (num : Nat) : Outcome RecommendDict :=
  match analyzeDictOf npSqrt pd renv.aenv with
  | .errorDict m => .returned (.errorDict m)
  | .success cm =>
    if renv.etf.isEmpty then
      .returned (.errorDict ("Failed to fetch sector ETF data"))
    else if renv.aenv.hist.isEmpty then
      .returned (.errorDict ("Failed to fetch current portfolio price data"))
    else .returned (.success (mkRecommendSuccess npSqrt pd renv num cm))

/-- `recommend_stocks` as the caller sees it: the whole body runs under
`try: ... except Exception as e: return {"error": f"..."}`. -/
def recommend_stocks (npSqrt : ℚ → ℚ) (pd : Portfolio) (renv : RecommendEnv)
    (num : Nat) : Outcome RecommendDict :=
  .returned
    (match recommend_body npSqrt pd renv num with
     | .raised e => .errorDict ("Error generating recommendations: " ++ excMsg e)
     | .returned d => d)

/-- The recommendations list of a recommendation outcome (empty on error). -/
def recsOf : Outcome RecommendDict → List RecEntry
  | .returned (.success r) => r.recommendations
  | _ => []

/-! ## Concrete inputs used by witnesses and failing-input evaluations -/

/-- The empty DataFrame a failed `get_price_data` returns. -/
def emptyPriceTable : Table := { tickers := [], rows := [] }

/-- A two-asset price table with two aligned return rows. -/
def optTableW : Table :=
  { tickers := ["AAA", "BBB"],
    rows := [(0, [1, 1]), (1, [2, 3]), (2, [3, 2])] }

/-- A contract-honouring stand-in for SLSQP: it reports success exactly on
two-asset problems and returns the uniform point, which is feasible. -/
def slsqpW : SolverInput → SolverResult := fun inp =>
  { success := inp.init_guess.length == 2, x := [1 / 2, 1 / 2] }

/-- A one-asset portfolio: 1 share entered at price 10. -/
def pd10 : Portfolio := [("AAA", 10, 1)]

/-- A year of history for `pd10`: daily returns 3/4, -3/4, 0 (mean 0,
sample variance 9/16 — a perfect rational square). -/
def histT10 : Table :=
  { tickers := ["AAA"], rows := [(0, [16]), (1, [28]), (2, [7]), (3, [7])] }

/-- Analysis environment in which the `^GSPC` fetch came back empty. -/
def env10 : AnalyzeEnv :=
  { hist := histT10, market := emptyPriceTable, gauss := fun _ => 0, today := 0 }

/-- A non-empty portfolio whose market value is zero: the weight
comprehension divides by zero. -/
def pdZ : Portfolio := [("ZZZ", 0, 1)]

/-- Any environment; the division raises before it is read. -/
def envZ : AnalyzeEnv :=
  { hist := emptyPriceTable, market := emptyPriceTable,
    gauss := fun _ => 0, today := 0 }

/-- Recommendation environment over `envZ`. -/
def renvZ : RecommendEnv :=
  { aenv := envZ, etf := emptyPriceTable, holdings := fun _ => none,
    stockData := fun _ => emptyPriceTable }

/-- A benchmark series whose trend is exactly +5 percent. -/
def mkt7 : Table :=
  { tickers := ["^GSPC"], rows := [(0, [100]), (1, [105])] }

/-! ## Helper lemmas -/

/-- `meansOf` yields one mean per column. -/
theorem meansOf_length (t : Table) : (meansOf t).length = t.tickers.length := by
  simp [meansOf]

/-- `pctChange` keeps the column labels. -/
theorem pctChange_tickers (t : Table) : t.pctChange.tickers = t.tickers := rfl

/-- Dotting against an all-zero vector gives 0. -/
theorem dotList_map_zero (l w : List ℚ) :
    dotList (l.map (fun _ => (0 : ℚ))) w = 0 := by
  induction l generalizing w with
  | nil => simp [dotList]
  | cons a as ih =>
    cases w with
    | nil => simp [dotList]
    | cons b bs =>
      simp only [List.map_cons, dotList, ih bs]
      ring

/-- Prepending a zero column to every row drops the head coordinate. -/
theorem matVec_map_cons_zero (rows : List (List ℚ)) (a : ℚ) (w : List ℚ) :
    matVec (rows.map (fun row => (0 : ℚ) :: row)) (a :: w) = matVec rows w := by
  induction rows with
  | nil => simp [matVec]
  | cons r rs ih => simp [matVec, dotList, ih]

/-- The quadratic form of a diagonal matrix collapses to `Σ w_i^2 d_i`. -/
theorem diag_quad (w d : List ℚ) (h : w.length = d.length) :
    dotList w (matVec (diagOf d) w) = sumSq w d := by
  induction w generalizing d with
  | nil =>
    cases d with
    | nil => simp [diagOf, matVec, dotList, sumSq]
    | cons x xs => simp at h
  | cons a as ih =>
    cases d with
    | nil => simp at h
    | cons x xs =>
      have hlen : as.length = xs.length := by simpa using h
      simp only [diagOf, matVec, List.map_cons, dotList, sumSq]
      rw [show (List.map (fun row => dotList row (a :: as))
          ((diagOf xs).map (fun row => (0 : ℚ) :: row)))
          = matVec ((diagOf xs).map (fun row => (0 : ℚ) :: row)) (a :: as) from rfl,
        matVec_map_cons_zero, dotList_map_zero, ih xs hlen]
      ring

/-- The candidate loop never extends its accumulator: every eligible
candidate raises at source line 339 before the append, aborting the sector. -/
theorem candLoop_acc (pdTickers : List String) (renv : RecommendEnv)
    (pretDates : List Nat) (acc : List RecEntry) (cs : List String) :
    candLoop pdTickers renv pretDates acc cs = acc := by
  induction cs with
  | nil => rfl
  | cons c cs ih =>
    simp only [candLoop]
    split
    · exact ih
    · split
      · exact ih
      · split
        · rfl
        · exact ih

/-- Hence the raw recommendations list is empty for every input. -/
theorem recsRawOf_nil (npSqrt : ℚ → ℚ) (pd : Portfolio) (renv : RecommendEnv) :
    recsRawOf npSqrt pd renv = [] := by
  unfold recsRawOf
  generalize lowCorrSectors npSqrt pd renv = l
  induction l with
  | nil => rfl
  | cons e es ih =>
    simp only [List.foldl_cons]
    have hstep : ∀ acc : List RecEntry,
        (match renv.holdings e.1 with
         | none => acc
         | some hs =>
           if hs.isEmpty then acc
           else candLoop (pd.map (fun x => x.1)) renv
             ((recPortfolioReturns pd renv).map (fun r => r.1)) acc (hs.take 5))
        = acc := by
      intro acc
      cases renv.holdings e.1 with
      | none => rfl
      | some hs =>
        simp only
        split
        · rfl
        · exact candLoop_acc _ _ _ _ _
    rw [hstep []]
    exact ih

/-- Under either of C10's premises the beta computation returns 1. -/
theorem betaCalc_one (pd : Portfolio) (env : AnalyzeEnv)
    (h : env.market.isEmpty = true ∨
      interDates (histReturns env).dates env.market.pctChange.dates = []) :
    betaCalc pd env = 1 := by
  unfold betaCalc
  rcases h with h | h
  · simp [h]
  · by_cases hm : env.market.isEmpty = true
    · simp [hm]
    · simp only [hm, Bool.false_eq_true, if_false]
      rw [h]
      simp

/-! ## Claim theorems -/

/-- C2 (failing-input evaluation): calling `optimize_portfolio` on the empty
price table a failed fetch returns does NOT fail with a data-availability
error: it raises `ZeroDivisionError` from the pure-Python expression
`1.0 / num_assets` with `num_assets == 0` (the repository defines no
`DataUnavailableError` at all). -/
theorem C2_optimize_empty_table_raises_zero_division :
    optimize_portfolio ratSqrt slsqpW emptyPriceTable (1 / 100)
      = .raised .zeroDivisionError := by
  decide

set_option maxRecDepth 100000 in
/-- C5 (failing-input evaluation): the projection's date axis, started on
any weekday of the run date, holds exactly 180 dates, not 252: the source
walks 252 CALENDAR days (exactly 36 weeks) and keeps only the 5 weekdays of
each week, contradicting its own comment "(252 trading days)". -/
theorem C5_projection_axis_180_not_252 :
    (genDates 0).length = 180 ∧ (genDates 1).length = 180 ∧
    (genDates 2).length = 180 ∧ (genDates 3).length = 180 ∧
    (genDates 4).length = 180 ∧ (genDates 5).length = 180 ∧
    (genDates 6).length = 180 ∧ (180 : Nat) ≠ 252 := by
  refine ⟨by decide, by decide, by decide, by decide, by decide, by decide,
    by decide, by decide⟩

/-- C6 (failing-input evaluation): the daily-return draws of the projector
(source line 104, `np.random.normal(historical_annual_return/252, daily_vol,
len(dates))`) read the process-global numpy stream: two runs over identical
call inputs but different ambient stream states produce different paths.
The parameters shown are those produced by the history `histT10`
(portfolio mean daily return 0, daily volatility 3/4); no seed parameter
exists anywhere in `analyze_proposed_portfolio` to pin the stream down. -/
theorem C6_draws_depend_on_global_stream :
    normalDraws (fun _ => 0) 0 0 (3 / 4) 180
      ≠ normalDraws (fun i => if i = 0 then 1 else 0) 0 0 (3 / 4) 180 := by
  intro h
  have h0 := congrArg (fun l => l[0]?) h
  simp only [normalDraws, List.getElem?_map, List.getElem?_range] at h0
  norm_num at h0

/-- C4: `calculate_portfolio_performance` is a pure function — identical
inputs give the identical (return, risk) pair —, its return component is
`np.dot(weights, mean_returns) * 252`, and on a diagonal covariance matrix
(diagonal entries `d`, the per-asset variances) its risk component collapses
to `sqrt(252 * Σ w_i^2 d_i)`.  All three parts hold for every square-root
implementation `npSqrt`, since the risk arguments coincide exactly. -/
theorem C4_performance_pure_and_diagonal :
    (∀ (npSqrt : ℚ → ℚ) (w1 m1 : List ℚ) (c1 : List (List ℚ))
        (w2 m2 : List ℚ) (c2 : List (List ℚ)), w1 = w2 → m1 = m2 → c1 = c2 →
        calculate_portfolio_performance npSqrt w1 m1 c1
          = calculate_portfolio_performance npSqrt w2 m2 c2) ∧
    (∀ (npSqrt : ℚ → ℚ) (w m : List ℚ) (c : List (List ℚ)),
        (calculate_portfolio_performance npSqrt w m c).1 = dotList w m * 252) ∧
    (∀ (npSqrt : ℚ → ℚ) (w m d : List ℚ), w.length = d.length →
        (calculate_portfolio_performance npSqrt w m (diagOf d)).2
          = npSqrt (252 * sumSq w d)) := by
  refine ⟨?_, ?_, ?_⟩
  · intro npSqrt w1 m1 c1 w2 m2 c2 hw hm hc
    rw [hw, hm, hc]
  · intro npSqrt w m c
    rfl
  · intro npSqrt w m d h
    unfold calculate_portfolio_performance trading_days
    simp only
    rw [diag_quad w d h, mul_comm]

/-- Witness for C4: the diagonal part applied at `w = [1/2, 1/2]`,
`d = [4, 9]`. -/
theorem C4_performance_pure_and_diagonal_witness :
    ([(1 : ℚ) / 2, 1 / 2].length = [(4 : ℚ), 9].length) ∧
    (calculate_portfolio_performance ratSqrt [1 / 2, 1 / 2] [1, 2]
        (diagOf [4, 9])).2
      = ratSqrt (252 * sumSq [1 / 2, 1 / 2] [4, 9]) :=
  ⟨by decide,
   C4_performance_pure_and_diagonal.2.2 ratSqrt [1 / 2, 1 / 2] [1, 2] [4, 9]
     (by decide)⟩

/-- C7: for every non-empty benchmark price series (with a positive first
price, where float and rational semantics agree), the market classification
is Bullish exactly when the percentage trend exceeds 5, Bearish exactly when
it is below -5, and Neutral otherwise — including at exactly +5 and -5. -/
theorem C7_market_classification_thresholds (npSqrt : ℚ → ℚ) (market : Table)
    (hne : market.isEmpty = false) (hpos : 0 < ((market.rows.headD (0, [])).2).headD 0) :
    ((analyze_market_conditions npSqrt market).condition = "Bullish"
        ↔ 5 < marketTrend market) ∧
    ((analyze_market_conditions npSqrt market).condition = "Bearish"
        ↔ marketTrend market < -5) ∧
    ((analyze_market_conditions npSqrt market).condition = "Neutral"
        ↔ (-5 ≤ marketTrend market ∧ marketTrend market ≤ 5)) := by
  unfold analyze_market_conditions
  rw [hne]
  simp only [Bool.false_eq_true, if_false]
  by_cases h1 : marketTrend market > 5
  · rw [if_pos h1]
    refine ⟨by simp [h1], ?_, ?_⟩
    · constructor
      · intro hs; exact absurd hs (by decide)
      · intro hlt; exact absurd h1 (by linarith)
    · constructor
      · intro hs; exact absurd hs (by decide)
      · intro hle; exact absurd h1 (by push_neg; exact hle.2)
  · rw [if_neg h1]
    by_cases h2 : marketTrend market < -5
    · rw [if_pos h2]
      refine ⟨?_, by simp [h2], ?_⟩
      · constructor
        · intro hs; exact absurd hs (by decide)
        · intro hgt; exact absurd hgt h1
      · constructor
        · intro hs; exact absurd hs (by decide)
        · intro hle; exact absurd h2 (by push_neg; exact hle.1)
    · rw [if_neg h2]
      push_neg at h1 h2
      refine ⟨?_, ?_, by simp [h1, h2]⟩
      · constructor
        · intro hs; exact absurd hs (by decide)
        · intro hgt; exact absurd hgt (by push_neg; exact h1)
      · constructor
        · intro hs; exact absurd hs (by decide)
        · intro hlt; exact absurd hlt (by push_neg; exact h2)

/-- Witness for C7: the benchmark `mkt7` has trend exactly +5; the theorem
applies and classifies the boundary as Neutral. -/
theorem C7_market_classification_thresholds_witness :
    (mkt7.isEmpty = false ∧ 0 < ((mkt7.rows.headD (0, [])).2).headD 0) ∧
    ((analyze_market_conditions ratSqrt mkt7).condition = "Neutral"
      ↔ (-5 ≤ marketTrend mkt7 ∧ marketTrend mkt7 ≤ 5)) :=
  ⟨⟨rfl, by norm_num [mkt7]⟩,
   (C7_market_classification_thresholds ratSqrt mkt7 rfl
     (by norm_num [mkt7])).2.2⟩

/-- C1: whenever the solver honours its feasibility contract and
`optimize_portfolio` returns (the solver reported success), the returned
weight vector has one entry per asset (per column of the price table), every
entry lies in [0, 1], and the entries sum to 1 within 1e-6: the source
passes `result.x` through without renormalizing, clipping or truncating. -/
theorem C1_optimize_success_weights_feasible (npSqrt : ℚ → ℚ)
    (solver : SolverInput → SolverResult) (price_data : Table) (rf : ℚ)
    (hfeas : SolverFeasible solver)
    (hret : (optimize_portfolio npSqrt solver price_data rf).isReturned = true) :
    (optWeights (optimize_portfolio npSqrt solver price_data rf)).length
        = price_data.tickers.length ∧
    (∀ w ∈ optWeights (optimize_portfolio npSqrt solver price_data rf),
        0 ≤ w ∧ w ≤ 1) ∧
    |(optWeights (optimize_portfolio npSqrt solver price_data rf)).sum - 1|
        ≤ 1 / 1000000 := by
  unfold optimize_portfolio at hret ⊢
  by_cases h0 : (meansOf price_data.pctChange).length = 0
  · rw [if_pos h0] at hret
    exact absurd hret (by simp [Outcome.isReturned])
  · rw [if_neg h0] at hret ⊢
    set inp : SolverInput :=
      { mean_returns := meansOf price_data.pctChange,
        cov_matrix := covMatrixOf price_data.pctChange,
        risk_free_rate := rf,
        init_guess := List.replicate (meansOf price_data.pctChange).length
          (1 / ((meansOf price_data.pctChange).length : ℚ)) } with hinp
    by_cases hs : (solver inp).success = true
    · rw [if_pos hs] at hret ⊢
      obtain ⟨hlen, hbox, hsum⟩ := hfeas inp hs
      refine ⟨?_, hbox, hsum⟩
      rw [show optWeights (Outcome.returned
        { weights := (solver inp).x,
          ret := (calculate_portfolio_performance npSqrt (solver inp).x
            inp.mean_returns inp.cov_matrix).1,
          risk := (calculate_portfolio_performance npSqrt (solver inp).x
            inp.mean_returns inp.cov_matrix).2,
          sharpe := ((calculate_portfolio_performance npSqrt (solver inp).x
            inp.mean_returns inp.cov_matrix).1 - rf) /
            (calculate_portfolio_performance npSqrt (solver inp).x
              inp.mean_returns inp.cov_matrix).2 }) = (solver inp).x from rfl]
      rw [hlen]
      simp [hinp, meansOf_length, pctChange_tickers]
    · rw [if_neg hs] at hret
      exact absurd hret (by simp [Outcome.isReturned])

/-- Witness for C1: the contract-honouring solver `slsqpW` on the two-asset
table `optTableW`; the run returns, and the returned weights are feasible. -/
theorem C1_optimize_success_weights_feasible_witness :
    (SolverFeasible slsqpW ∧
      (optimize_portfolio ratSqrt slsqpW optTableW (1 / 100)).isReturned = true) ∧
    ((optWeights (optimize_portfolio ratSqrt slsqpW optTableW (1 / 100))).length
        = optTableW.tickers.length ∧
      (∀ w ∈ optWeights (optimize_portfolio ratSqrt slsqpW optTableW (1 / 100)),
        0 ≤ w ∧ w ≤ 1) ∧
      |(optWeights (optimize_portfolio ratSqrt slsqpW optTableW (1 / 100))).sum - 1|
        ≤ 1 / 1000000) := by
  have hfeas : SolverFeasible slsqpW := by
    intro inp hs
    have h2 : inp.init_guess.length = 2 := by
      have := hs
      simp only [slsqpW, beq_iff_eq] at this
      exact this
    refine ⟨by simp [slsqpW, h2], ?_, ?_⟩
    · intro w hw
      have hw2 : w = 1 / 2 := by
        simpa [slsqpW, List.mem_cons, or_self] using hw
      rw [hw2]
      norm_num
    · simp only [slsqpW]
      norm_num
  have hret : (optimize_portfolio ratSqrt slsqpW optTableW (1 / 100)).isReturned
      = true := by decide
  exact ⟨⟨hfeas, hret⟩,
    C1_optimize_success_weights_feasible ratSqrt slsqpW optTableW (1 / 100)
      hfeas hret⟩

/-- C8: for every input portfolio, environment and requested count, the
returned recommendation list is sorted strictly descending by
`volatility_reduction + beta_reduction`, contains no ticker already held,
and has length at most the requested count.  The properties hold because the
list is in fact ALWAYS empty: every candidate that survives the filters
reaches source line 339, whose `DataFrame.corr(Series)` call raises, and the
per-sector handler discards the sector before anything is appended. -/
theorem C8_recommendations_sorted_excluding_held_bounded (npSqrt : ℚ → ℚ)
    (pd : Portfolio) (renv : RecommendEnv) (num : Nat) :
    recsOf (recommend_stocks npSqrt pd renv num) = [] ∧
    List.Chain' (fun a b => recKey b < recKey a)
      (recsOf (recommend_stocks npSqrt pd renv num)) ∧
    (∀ r ∈ recsOf (recommend_stocks npSqrt pd renv num),
      r.ticker ∉ pd.map (fun x => x.1)) ∧
    (recsOf (recommend_stocks npSqrt pd renv num)).length ≤ num := by
  have hnil : recsOf (recommend_stocks npSqrt pd renv num) = [] := by
    unfold recommend_stocks recommend_body
    cases h : analyzeDictOf npSqrt pd renv.aenv with
    | errorDict m => rfl
    | success cm =>
      simp only
      split_ifs
      · rfl
      · rfl
      · show (mkRecommendSuccess npSqrt pd renv num cm).recommendations = []
        unfold mkRecommendSuccess recsSorted
        simp [recsRawOf_nil]
  refine ⟨hnil, ?_, ?_, ?_⟩
  · rw [hnil]; exact List.chain'_nil
  · rw [hnil]; intro r hr; cases hr
  · rw [hnil]; exact Nat.zero_le num

/-- C9: the analysis and recommendation entry points never raise — each runs
its whole body under a catch-all handler and returns a dict — and an
internal exception `e` of the analysis body surfaces as the structured error
dict carrying its description, both from `analyze_proposed_portfolio` itself
and through `recommend_stocks` (which forwards the analysis error dict). -/
theorem C9_entry_points_never_raise (npSqrt : ℚ → ℚ) (pd : Portfolio)
    (env : AnalyzeEnv) (renv : RecommendEnv) (num : Nat) (e : PyExc) :
    ((analyze_proposed_portfolio npSqrt pd env).isReturned = true ∧
      (recommend_stocks npSqrt pd renv num).isReturned = true) ∧
    (analyze_body npSqrt pd env = .raised e →
      analyze_proposed_portfolio npSqrt pd env
        = .returned (.errorDict ("Error analyzing portfolio: " ++ excMsg e))) ∧
    (analyze_body npSqrt pd renv.aenv = .raised e →
      recommend_stocks npSqrt pd renv num
        = .returned (.errorDict ("Error analyzing portfolio: " ++ excMsg e))) := by
  refine ⟨⟨rfl, rfl⟩, ?_, ?_⟩
  · intro h
    unfold analyze_proposed_portfolio analyzeDictOf
    rw [h]
  · intro h
    unfold recommend_stocks recommend_body analyzeDictOf
    rw [h]

/-- Witness for C9: the non-empty zero-value portfolio `pdZ` makes the
analysis body raise `ZeroDivisionError`; both entry points return the
structured error dict instead of propagating it. -/
theorem C9_entry_points_never_raise_witness :
    (analyze_body ratSqrt pdZ envZ = .raised .zeroDivisionError) ∧
    (analyze_proposed_portfolio ratSqrt pdZ envZ = .returned
      (.errorDict ("Error analyzing portfolio: " ++ excMsg .zeroDivisionError))) ∧
    (recommend_stocks ratSqrt pdZ renvZ 2 = .returned
      (.errorDict ("Error analyzing portfolio: " ++ excMsg .zeroDivisionError))) := by
  have hc : pdZ ≠ [] ∧ totalInvestment pdZ = 0 := by
    constructor
    · simp [pdZ]
    · norm_num [totalInvestment, pdZ]
  have h : analyze_body ratSqrt pdZ envZ = .raised .zeroDivisionError := by
    unfold analyze_body
    rw [if_pos hc]
  exact ⟨h,
    (C9_entry_points_never_raise ratSqrt pdZ envZ renvZ 2 .zeroDivisionError).2.1 h,
    (C9_entry_points_never_raise ratSqrt pdZ envZ renvZ 2 .zeroDivisionError).2.2 h⟩

/-- C10: whenever the `^GSPC` fetch comes back empty, or its return index
shares no date with the portfolio's return index, the analysis reports a
beta of exactly 1.0 in its successful result (the initialization at source
line 74 is never overwritten). -/
theorem C10_beta_defaults_to_one (npSqrt : ℚ → ℚ) (pd : Portfolio)
    (env : AnalyzeEnv)
    (h : env.market.isEmpty = true ∨
      interDates (histReturns env).dates env.market.pctChange.dates = []) :
    (dictBeta (analyze_body npSqrt pd env)).getD 1 = 1 := by
  unfold analyze_body
  split_ifs
  · simp [dictBeta]
  · simp [dictBeta]
  · simp only [dictBeta, mkAnalyzeSuccess, Option.getD_some]
    exact betaCalc_one pd env h

/-- Witness for C10: portfolio `pd10` with history `histT10` and an EMPTY
benchmark fetch: the analysis still succeeds, and its beta is exactly 1. -/
theorem C10_beta_defaults_to_one_witness :
    (env10.market.isEmpty = true ∨
      interDates (histReturns env10).dates env10.market.pctChange.dates = []) ∧
    (dictBeta (analyze_body ratSqrt pd10 env10)).getD 1 = 1 ∧
    isSuccessD (analyze_body ratSqrt pd10 env10) = true := by
  have htot : totalInvestment pd10 ≠ 0 := by norm_num [totalInvestment, pd10]
  have h1 : ¬(pd10 ≠ [] ∧ totalInvestment pd10 = 0) := fun hcon => htot hcon.2
  have h2 : ¬(env10.hist.isEmpty = true) := by decide
  have hsucc : isSuccessD (analyze_body ratSqrt pd10 env10) = true := by
    unfold analyze_body
    rw [if_neg h1, if_neg h2]
    rfl
  exact ⟨Or.inl rfl,
    C10_beta_defaults_to_one ratSqrt pd10 env10 (Or.inl rfl), hsucc⟩
